import Mathlib

/-!
Shallow embedding of pynamubot's rate limiter (`src/pynamubot/api/api.py`,
class `Limiter`) and of its typed request/response boundary
(`src/pynamubot/api/schemas.py`, pydantic models, and the response handling of
the `TheSeedAPIClient` methods), with theorems settling the specification's
claims.

Modelling conventions:
* Monotonic-clock instants and durations are rationals (the Python code uses
  floats; `float("-inf")`, the initial value of `Limiter.last`, is modelled as
  `none` in an `Option ℚ`, which reproduces the float arithmetic of `acquire`:
  with `last = -inf`, `elapsed = now - last = +inf`,
  `wait = interval - elapsed = -inf`, and `max(0.0, wait) = 0.0`).
* JSON values are an inductive `Json` type with integer numerals (the payloads
  of this API carry only integers where numbers appear).
* pydantic v2 validation (`model_validate`) is embedded field by field: a field
  declared without a default is required, even when its annotation is
  `Optional[...]`; `Optional[...]` annotations additionally accept `null`;
  extra keys are ignored; a failure reports the offending top-level field
  names (nested error locations are flattened to the top-level field name).
* `requests.Response.raise_for_status` raises `HTTPError` exactly for status
  codes in `[400, 600)`; `requests` drops `params` entries whose value is
  `None` from the query string entirely.
-/

namespace Pynamubot

/-! ## JSON values -/

inductive Json where
  | null : Json
  | bool : Bool → Json
  | num : Int → Json
  | str : String → Json
  | arr : List Json → Json
  | obj : List (String × Json) → Json

/-- First binding of a key in a JSON object's field list. -/
def jlookup (fields : List (String × Json)) (key : String) : Option Json :=
  match fields with
  | [] => none
  | (k, v) :: rest => if k = key then some v else jlookup rest key

/-! ## pydantic-style validation

A validation error is the list of offending field names (the `loc` entries of
a pydantic `ValidationError`). -/

abbrev VErr := List String

/-- Combine two field-validation results, accumulating the error locations the
way pydantic collects every failing field of a model rather than stopping at
the first. -/
def combine2 {α β : Type} : Except VErr α → Except VErr β → Except VErr (α × β)
  | .error e₁, .error e₂ => .error (e₁ ++ e₂)
  | .error e₁, .ok _ => .error e₁
  | .ok _, .error e₂ => .error e₂
  | .ok a, .ok b => .ok (a, b)

/-- A model field with no declared default: the key must be present and its
value must be read by the field type's reader, otherwise the field name is
reported. -/
def reqField {α : Type} (fields : List (String × Json)) (name : String)
    (read : Json → Option α) : Except VErr α :=
  match jlookup fields name with
  | none => .error [name]
  | some v =>
    match read v with
    | none => .error [name]
    | some a => .ok a

/-- Reader for a `str` field. -/
def asStr : Json → Option String
  | .str s => some s
  | _ => none

/-- Reader for a `bool` field. -/
def asBool : Json → Option Bool
  | .bool b => some b
  | _ => none

/-- Reader for an `int` field. -/
def asInt : Json → Option Int
  | .num n => some n
  | _ => none

/-- Reader for an `Optional[str]` annotation: `null` is accepted as "unset".
The field itself is still required when no default is declared. -/
def asOptStr : Json → Option (Option String)
  | .null => some none
  | .str s => some (some s)
  | _ => none

/-- Reader for a `datetime` field fed, as the upstream API does, with a Unix
timestamp number. -/
def asTimestamp : Json → Option Int
  | .num n => some n
  | _ => none

/-- Reader for a `list[...]` field: the value must be a JSON array and every
element must validate. -/
def readList {α : Type} (readElem : Json → Option α) : Json → Option (List α)
  | .arr xs => xs.mapM readElem
  | _ => none

/-! ## Schemas (`src/pynamubot/api/schemas.py`) -/

/-- `class EditGETResponse(BaseModel)`: text, exists, token. -/
structure EditGETResponse where
  text : String
  «exists» : Bool
  token : String
deriving DecidableEq, Repr

def EditGETResponse.model_validate (j : Json) : Except VErr EditGETResponse :=
  match j with
  | .obj fields =>
    (combine2 (reqField fields "text" asStr)
      (combine2 (reqField fields "exists" asBool)
        (reqField fields "token" asStr))).map
      (fun x => ⟨x.1, x.2.1, x.2.2⟩)
  | _ => .error ["__root__"]

/-- `class EditPOSTBody(BaseModel)`: text, log, token (outbound request body). -/
structure EditPOSTBody where
  text : String
  log : String
  token : String
deriving DecidableEq, Repr

/-- `class EditPOSTResponse(BaseModel)`: status, rev. -/
structure EditPOSTResponse where
  status : String
  rev : Int
deriving DecidableEq, Repr

def EditPOSTResponse.model_validate (j : Json) : Except VErr EditPOSTResponse :=
  match j with
  | .obj fields =>
    (combine2 (reqField fields "status" asStr)
      (reqField fields "rev" asInt)).map
      (fun x => ⟨x.1, x.2⟩)
  | _ => .error ["__root__"]

/-- `class Namespaces(BaseModel)`: namespace, count. -/
structure Namespaces where
  «namespace» : String
  count : Int
deriving DecidableEq, Repr

def Namespaces.model_validate (j : Json) : Except VErr Namespaces :=
  match j with
  | .obj fields =>
    (combine2 (reqField fields "namespace" asStr)
      (reqField fields "count" asInt)).map
      (fun x => ⟨x.1, x.2⟩)
  | _ => .error ["__root__"]

/-- `class Backlinks(BaseModel)`: document, flags. -/
structure Backlinks where
  document : String
  flags : String
deriving DecidableEq, Repr

def Backlinks.model_validate (j : Json) : Except VErr Backlinks :=
  match j with
  | .obj fields =>
    (combine2 (reqField fields "document" asStr)
      (reqField fields "flags" asStr)).map
      (fun x => ⟨x.1, x.2⟩)
  | _ => .error ["__root__"]

/-- `class BacklinkResponse(BaseModel)`. The third field is spelled `fromm` in
the source (not `from`), and neither `fromm` nor `until` declares a default, so
under pydantic v2 both are required: a payload without the key fails
validation, while an explicit `null` is accepted as "unset". -/
structure BacklinkResponse where
  namespaces : List Namespaces
  backlinks : List Backlinks
  fromm : Option String
  «until» : Option String
deriving DecidableEq, Repr

def BacklinkResponse.model_validate (j : Json) : Except VErr BacklinkResponse :=
  match j with
  | .obj fields =>
    (combine2 (reqField fields "namespaces" (readList fun v => (Namespaces.model_validate v).toOption))
      (combine2 (reqField fields "backlinks" (readList fun v => (Backlinks.model_validate v).toOption))
        (combine2 (reqField fields "fromm" asOptStr)
          (reqField fields "until" asOptStr)))).map
      (fun x => ⟨x.1, x.2.1, x.2.2.1, x.2.2.2⟩)
  | _ => .error ["__root__"]

/-- Value set of the `Literal["normal", "close", "pause"]` annotation of the
discussion status field. -/
inductive DiscussStatus where
  | normal : DiscussStatus
  | close : DiscussStatus
  | pause : DiscussStatus
deriving DecidableEq, Repr

/-- Reader for the status literal: any JSON value outside the closed set
`{"normal", "close", "pause"}` is rejected. -/
def asDiscussStatus : Json → Option DiscussStatus
  | .str "normal" => some .normal
  | .str "close" => some .close
  | .str "pause" => some .pause
  | _ => none

/-- `class DiscussResponse(BaseModel)`: slug, topic, updated_date, status. -/
structure DiscussResponse where
  slug : String
  topic : String
  updated_date : Int
  status : DiscussStatus
deriving DecidableEq, Repr

def DiscussResponse.model_validate (j : Json) : Except VErr DiscussResponse :=
  match j with
  | .obj fields =>
    (combine2 (reqField fields "slug" asStr)
      (combine2 (reqField fields "topic" asStr)
        (combine2 (reqField fields "updated_date" asTimestamp)
          (reqField fields "status" asDiscussStatus)))).map
      (fun x => ⟨x.1, x.2.1, x.2.2.1, x.2.2.2⟩)
  | _ => .error ["__root__"]

/-! ## Client operations (`TheSeedAPIClient`), response side

Each method performs `response.raise_for_status()` and only then parses and
validates the body. An operation's outcome is a function of the HTTP status
code and the response body. -/

/-- The two error kinds an operation can surface: `httpStatus` is
`requests.HTTPError` raised by `raise_for_status` (its attached `response`
carries the status code and the raw body); `schema` is a pydantic
`ValidationError` carrying the offending field names. -/
inductive ApiError where
  | httpStatus (code : ℕ) (body : Json) : ApiError
  | schema (fields : VErr) : ApiError

/-- `requests.Response.raise_for_status` raises `HTTPError` exactly for
client-error (4xx) and server-error (5xx) status codes. -/
def raiseForStatus (code : ℕ) : Bool :=
  decide (400 ≤ code ∧ code < 600)

/-- Lift a validation outcome into the operation outcome. -/
def orSchema {α : Type} : Except VErr α → Except ApiError α
  | .error e => .error (.schema e)
  | .ok a => .ok a

/-- `True` exactly on outcomes that raised an HTTP status error. -/
def isHttpStatusError {α : Type} : Except ApiError α → Bool
  | .error (.httpStatus _ _) => true
  | _ => false

/-- `TheSeedAPIClient.edit_get`: `response.raise_for_status()` then
`EditGETResponse.model_validate(response.json())`. -/
def edit_get (code : ℕ) (body : Json) : Except ApiError EditGETResponse :=
  if raiseForStatus code then .error (.httpStatus code body)
  else orSchema (EditGETResponse.model_validate body)

/-- `TheSeedAPIClient.edit_post`, response side: `raise_for_status` then
`EditPOSTResponse.model_validate(response.json())` (the serialized request
body does not influence response handling). -/
def edit_post (code : ℕ) (body : Json) : Except ApiError EditPOSTResponse :=
  if raiseForStatus code then .error (.httpStatus code body)
  else orSchema (EditPOSTResponse.model_validate body)

/-- `TheSeedAPIClient.backlink`, response side: `raise_for_status` then
`BacklinkResponse.model_validate(response.json())`. -/
def backlink (code : ℕ) (body : Json) : Except ApiError BacklinkResponse :=
  if raiseForStatus code then .error (.httpStatus code body)
  else orSchema (BacklinkResponse.model_validate body)

/-- `TheSeedAPIClient.discuss`: `raise_for_status`, then the list comprehension
`[DiscussResponse.model_validate(item) for item in response.json()]` — items
are validated in order and the first failing element raises, so no partial
list is ever produced. -/
def discuss (code : ℕ) (body : Json) : Except ApiError (List DiscussResponse) :=
  if raiseForStatus code then .error (.httpStatus code body)
  else
    match body with
    | .arr items => orSchema (items.mapM DiscussResponse.model_validate)
    | _ => .error (.schema ["__root__"])

/-- One optional entry of the `params` dict passed to `session.get`:
`requests` omits a key whose value is `None` from the query string entirely. -/
def paramEntry (key : String) : Option String → List (String × String)
  | none => []
  | some v => [(key, v)]

/-- The query parameters of the request issued by `TheSeedAPIClient.backlink`:
the dict `{"namespace": namespace, "flag": flag, "from": fromm,
"until": until}` after `requests` drops the `None`-valued entries. -/
def backlinkParams («namespace» : Option String) (flag : Option Int)
    (fromm «until» : Option String) : List (String × String) :=
  paramEntry "namespace" «namespace» ++ paramEntry "flag" (flag.map toString)
    ++ paramEntry "from" fromm ++ paramEntry "until" «until»

/-! ## The rate limiter (`class Limiter`) -/

/-- The state of a `Limiter` instance. `acquireDisabled` records whether
`__init__` executed `self.acquire = lambda: None` (which it does exactly when
`interval <= 0.0`), permanently shadowing the `acquire` method on the
instance. `last = none` models the initial `float("-inf")`. -/
structure Limiter where
  interval : ℚ
  acquireDisabled : Bool
  last : Option ℚ
deriving DecidableEq, Repr

/-- `Limiter.__init__(interval_seconds)`. -/
def Limiter.init (interval_seconds : ℚ) : Limiter :=
  { interval := interval_seconds
    acquireDisabled := decide (interval_seconds ≤ 0)
    last := none }

/-- The duration `max(0.0, interval - (now - last))` requested from
`time.sleep` by the method body of `acquire`. With `last = -inf` the float
arithmetic yields `max(0.0, -inf) = 0.0`. -/
def sleepRequest (interval : ℚ) (last : Option ℚ) (now : ℚ) : ℚ :=
  match last with
  | none => 0
  | some t => max 0 (interval - (now - t))

def Limiter.waitReq (l : Limiter) (now : ℚ) : ℚ :=
  sleepRequest l.interval l.last now

/-- One call to `acquire()`. `now` is the `time.monotonic()` reading at entry
and `now2` the reading taken after `time.sleep` returns, which becomes the new
`last` (theorems constrain `now + waitReq ≤ now2`: the sleep suspends at least
as long as requested and the clock is monotone). The second component is the
duration passed to `time.sleep`, `none` when the no-op replacement installed
by `__init__` runs and the sleep primitive is never called. -/
def Limiter.acquire (l : Limiter) (now now2 : ℚ) : Limiter × Option ℚ :=
  if l.acquireDisabled then (l, none)
  else ({ l with last := some now2 }, some (l.waitReq now))

/-- A sequence of sequential `acquire()` calls, threading the limiter state;
each list entry supplies that call's two clock readings. Returns the final
state and the per-call sleep requests. -/
def Limiter.acquireSeq (l : Limiter) : List (ℚ × ℚ) → Limiter × List (Option ℚ)
  | [] => (l, [])
  | (now, now2) :: rest =>
    let step := l.acquire now now2
    let tail := step.1.acquireSeq rest
    (tail.1, step.2 :: tail.2)

/-! ## Two threads interleaved inside `acquire`

`Limiter.acquire` takes no lock: the read of `self.last`, the sleep, and the
write `self.last = time.monotonic()` are separate interpreter steps, and the
GIL is released for the whole duration of `time.sleep`. The machine below runs
two threads through the method body at that granularity, under an explicit
schedule; the schedule also chooses when the monotonic clock advances (it only
moves forward, and a sleeping thread resumes only once the clock has reached
its wake-up instant). -/

/-- Control point of one thread inside the body of `acquire`. -/
inductive ThreadPC where
  | atReadNow : ThreadPC
  | atComputeWait (now : ℚ) : ThreadPC
  | sleeping (wait wake : ℚ) : ThreadPC
  | atWriteLast (wait : ℚ) : ThreadPC
  | finished (wait completion : ℚ) : ThreadPC
deriving DecidableEq, Repr

/-- Shared state: the monotonic clock, the limiter's `interval` and `last`
attributes, and the two threads' control points. -/
structure RaceState where
  time : ℚ
  interval : ℚ
  last : Option ℚ
  threadA : ThreadPC
  threadB : ThreadPC
deriving DecidableEq, Repr

/-- One interpreter step of a thread: run `now = time.monotonic()`; read
`self.last` and compute the sleep request; return from `time.sleep` once the
clock has reached the wake-up instant; run `self.last = time.monotonic()`.
The second component is the write to the shared `last`, if any. -/
def stepThread (s : RaceState) : ThreadPC → ThreadPC × Option ℚ
  | .atReadNow => (.atComputeWait s.time, none)
  | .atComputeWait now =>
    let w := sleepRequest s.interval s.last now
    (.sleeping w (s.time + w), none)
  | .sleeping w wake =>
    if wake ≤ s.time then (.atWriteLast w, none) else (.sleeping w wake, none)
  | .atWriteLast w => (.finished w s.time, some s.time)
  | .finished w c => (.finished w c, none)

/-- One scheduling action: run one step of a thread, or let real time advance
(forward only) to a given instant. -/
inductive RaceAct where
  | runA : RaceAct
  | runB : RaceAct
  | advance (t : ℚ) : RaceAct
deriving DecidableEq, Repr

def raceStep (s : RaceState) : RaceAct → RaceState
  | .runA =>
    let r := stepThread s s.threadA
    { s with threadA := r.1, last := match r.2 with | some t => some t | none => s.last }
  | .runB =>
    let r := stepThread s s.threadB
    { s with threadB := r.1, last := match r.2 with | some t => some t | none => s.last }
  | .advance t => if s.time ≤ t then { s with time := t } else s

def raceRun (s : RaceState) (acts : List RaceAct) : RaceState :=
  acts.foldl raceStep s

/-- Initial state of the racy scenario: a `Limiter(1.0)` whose previous
acquisition completed at instant `0`, and two threads that both enter
`acquire()` at instant `1/2`. -/
def racyStart : RaceState :=
  { time := 1/2, interval := 1, last := some 0
    threadA := .atReadNow, threadB := .atReadNow }

/-- An interleaving in which both threads read the stale `last = 0` before
either reaches its write of `last`: both sleep, the clock reaches their common
wake-up instant, then each writes `last` and returns. -/
def racySchedule : List RaceAct :=
  [.runA, .runB, .runA, .runB, .advance 1, .runA, .runA, .runB, .runB]

/-! ## Theorems -/

/-- Accumulating combination with a failing right operand fails, and keeps
every error location of the right operand. -/
theorem combine2_error_right {α β : Type} (a : Except VErr α) (eb : VErr) :
    ∃ e : VErr, combine2 a (.error eb : Except VErr β) = .error e ∧ ∀ x ∈ eb, x ∈ e := by
  cases a with
  | error ea => exact ⟨ea ++ eb, rfl, fun x hx => List.mem_append.mpr (Or.inr hx)⟩
  | ok _ => exact ⟨eb, rfl, fun x hx => hx⟩

/-- C1: for a limiter configured with interval `i > 0` (in any state `last0`
reached by earlier calls), in a sequential pair of `acquire()` calls the second
call's wait is computed against the first call's completion timestamp — the
`last` field, written after the sleep — so the completion times of the two
acquisitions are at least `i` apart. `now1, now2` are the `time.monotonic()`
readings at entry of the two calls and `now1', now2'` the readings after their
sleeps (`hsleep` states that the second sleep suspends at least as long as
requested on a monotone clock; `hseq` that the calls are sequential). -/
theorem Limiter.acquire_consecutive_completions_spaced
    (i : ℚ) (hpos : 0 < i) (last0 : Option ℚ) (now1 now1' now2 now2' : ℚ)
    (hseq : now1' ≤ now2)
    (hsleep : now2 + (({ Limiter.init i with last := last0 }).acquire now1 now1').1.waitReq now2
      ≤ now2') :
    (({ Limiter.init i with last := last0 }).acquire now1 now1').1.last = some now1'
    ∧ ((({ Limiter.init i with last := last0 }).acquire now1 now1').1.acquire now2 now2').1.last
        = some now2'
    ∧ i ≤ now2' - now1' := by
  have hdis : (Limiter.init i).acquireDisabled = false := by
    simp [Limiter.init]
    exact hpos
  have h1 : (({ Limiter.init i with last := last0 }).acquire now1 now1').1
      = { Limiter.init i with last := some now1' } := by
    simp [Limiter.acquire, hdis]
  refine ⟨by rw [h1], ?_, ?_⟩
  · rw [h1]
    simp [Limiter.acquire, hdis]
  · rw [h1] at hsleep
    have h2 : ({ Limiter.init i with last := some now1' } : Limiter).waitReq now2
        = max 0 (i - (now2 - now1')) := by
      simp [Limiter.waitReq, sleepRequest, Limiter.init]
    rw [h2] at hsleep
    have h3 : i - (now2 - now1') ≤ max 0 (i - (now2 - now1')) := le_max_right _ _
    linarith

/-- Witness for C1: interval `1`, previous completion at `0`; the first call
enters at `0`, sleeps `1`, completes at `1`; the second enters at `1`, sleeps
`1`, completes at `2`; the completions are `1 ≥ interval` apart. -/
theorem Limiter.acquire_consecutive_completions_spaced_witness :
    (0:ℚ) < 1 ∧ (1:ℚ) ≤ 1
    ∧ 1 + (({ Limiter.init (1:ℚ) with last := some 0 }).acquire 0 1).1.waitReq 1 ≤ 2
    ∧ ((({ Limiter.init (1:ℚ) with last := some 0 }).acquire 0 1).1.last = some 1
      ∧ ((({ Limiter.init (1:ℚ) with last := some 0 }).acquire 0 1).1.acquire 1 2).1.last = some 2
      ∧ (1:ℚ) ≤ 2 - 1) :=
  ⟨by norm_num, by norm_num,
    by norm_num [Limiter.init, Limiter.acquire, Limiter.waitReq, sleepRequest],
    Limiter.acquire_consecutive_completions_spaced 1 (by norm_num) (some 0) 0 1 1 2 (by norm_num)
      (by norm_num [Limiter.init, Limiter.acquire, Limiter.waitReq, sleepRequest])⟩

/-- C2: a limiter constructed with interval exactly `0` has `acquire` replaced
by `lambda: None` in `__init__`, so any sequence of calls never invokes the
sleep primitive (every logged sleep request is `none`), performs no timestamp
comparison, and leaves the limiter state unchanged. -/
theorem Limiter.acquire_zero_interval_noop (reads : List (ℚ × ℚ)) :
    (Limiter.init 0).acquireSeq reads = (Limiter.init 0, reads.map fun _ => none) := by
  have hstep : ∀ now now2 : ℚ, (Limiter.init 0).acquire now now2 = (Limiter.init 0, none) := by
    intro now now2
    simp [Limiter.acquire, Limiter.init]
  induction reads with
  | nil => rfl
  | cons r rest ih =>
    obtain ⟨now, now2⟩ := r
    simp only [Limiter.acquireSeq, hstep, ih, List.map_cons]

/-- C10: a limiter constructed with any interval `i ≤ 0` — strictly negative
included — is disabled at construction time: `acquire` is the no-op
replacement, never sleeps, and never updates `last`. -/
theorem Limiter.acquire_nonpositive_interval_noop (i : ℚ) (hi : i ≤ 0)
    (reads : List (ℚ × ℚ)) :
    (Limiter.init i).acquireSeq reads = (Limiter.init i, reads.map fun _ => none) := by
  have hdis : (Limiter.init i).acquireDisabled = true := by
    simp [Limiter.init]
    exact hi
  have hstep : ∀ now now2 : ℚ, (Limiter.init i).acquire now now2 = (Limiter.init i, none) := by
    intro now now2
    simp [Limiter.acquire, hdis]
  induction reads with
  | nil => rfl
  | cons r rest ih =>
    obtain ⟨now, now2⟩ := r
    simp only [Limiter.acquireSeq, hstep, ih, List.map_cons]

/-- Witness for C10: a limiter built with the strictly negative interval `-1`
leaves its state unchanged and never sleeps on a call with clock readings
`(5, 7)`. -/
theorem Limiter.acquire_nonpositive_interval_noop_witness :
    (-1:ℚ) ≤ 0
    ∧ (Limiter.init (-1)).acquireSeq [(5, 7)] = (Limiter.init (-1), [none]) :=
  ⟨by norm_num, Limiter.acquire_nonpositive_interval_noop (-1) (by norm_num) [(5, 7)]⟩

/-- C3 (counterexample): status `304` is not 2xx, yet `edit_get` raises no
HTTP status error there — `raise_for_status` only raises for 4xx/5xx — and
instead proceeds to schema validation of the body. -/
theorem edit_get_status_304_no_http_error :
    ((304:ℕ) < 200 ∨ 299 < 304)
    ∧ isHttpStatusError (edit_get 304 (.obj [])) = false
    ∧ edit_get 304 (.obj []) = .error (.schema ["text", "exists", "token"]) :=
  ⟨by norm_num, rfl, rfl⟩

/-- C3 (amended): for every client operation and every response whose status
code lies in `[400, 600)` — the statuses `raise_for_status` treats as errors —
the operation raises an HTTP status error carrying the status code and the raw
response body, whatever the body contains, so no parsing or schema validation
of the body is attempted and no validated result is produced. -/
theorem operations_raise_http_status_error_on_4xx_5xx
    (code : ℕ) (h4 : 400 ≤ code) (h6 : code < 600) (body : Json) :
    edit_get code body = .error (.httpStatus code body)
    ∧ edit_post code body = .error (.httpStatus code body)
    ∧ backlink code body = .error (.httpStatus code body)
    ∧ discuss code body = .error (.httpStatus code body) := by
  have hr : raiseForStatus code = true := by
    simp [raiseForStatus]
    exact ⟨h4, h6⟩
  exact ⟨by simp [edit_get, hr], by simp [edit_post, hr], by simp [backlink, hr],
    by simp [discuss, hr]⟩

/-- Witness for the amended C3: HTTP 404 with body `{"error": "not found"}`
yields an HTTP status error carrying 404 and that body, on all four
operations. -/
theorem operations_raise_http_status_error_on_4xx_5xx_witness :
    400 ≤ 404 ∧ 404 < 600
    ∧ (edit_get 404 (.obj [("error", Json.str "not found")])
          = .error (.httpStatus 404 (.obj [("error", Json.str "not found")]))
      ∧ edit_post 404 (.obj [("error", Json.str "not found")])
          = .error (.httpStatus 404 (.obj [("error", Json.str "not found")]))
      ∧ backlink 404 (.obj [("error", Json.str "not found")])
          = .error (.httpStatus 404 (.obj [("error", Json.str "not found")]))
      ∧ discuss 404 (.obj [("error", Json.str "not found")])
          = .error (.httpStatus 404 (.obj [("error", Json.str "not found")]))) :=
  ⟨by norm_num, by norm_num,
    operations_raise_http_status_error_on_4xx_5xx 404 (by norm_num) (by norm_num) _⟩

/-- C4: a well-formed JSON payload that structurally matches a declared schema
validates into the corresponding typed object with every field value preserved
exactly — for `EditGETResponse` with arbitrary field values, and in particular
`{"text": "hi", "exists": true, "token": "t1"}` yields
`⟨"hi", true, "t1"⟩`; likewise for the other response schemas. -/
theorem schemas_roundtrip_preserve_fields :
    (∀ (t tok : String) (e : Bool),
      EditGETResponse.model_validate
          (.obj [("text", .str t), ("exists", .bool e), ("token", .str tok)])
        = .ok ⟨t, e, tok⟩)
    ∧ EditGETResponse.model_validate
          (.obj [("text", .str "hi"), ("exists", .bool true), ("token", .str "t1")])
        = .ok ⟨"hi", true, "t1"⟩
    ∧ EditPOSTResponse.model_validate (.obj [("status", .str "success"), ("rev", .num 7)])
        = .ok ⟨"success", 7⟩
    ∧ BacklinkResponse.model_validate
          (.obj [("namespaces", .arr [.obj [("namespace", .str "분류"), ("count", .num 2)]]),
            ("backlinks", .arr [.obj [("document", .str "A"), ("flags", .str "1")]]),
            ("fromm", .str "B"), ("until", .null)])
        = .ok ⟨[⟨"분류", 2⟩], [⟨"A", "1"⟩], some "B", none⟩
    ∧ DiscussResponse.model_validate
          (.obj [("slug", .str "s"), ("topic", .str "T"),
            ("updated_date", .num 1700000000), ("status", .str "normal")])
        = .ok ⟨"s", "T", 1700000000, .normal⟩ :=
  ⟨fun t tok e => rfl, rfl, rfl, rfl, rfl⟩

/-- C5: the `BacklinkResponse` fields are not optional in the code: `fromm`
(spelled with a double `m`, so the API's `from` key never matches it) and
`until` declare no default, so a payload omitting them is rejected with both
fields reported missing, and even supplying the API's actual key `from`
alongside `until` still fails on `fromm`; only an explicitly present `null`
(or string) under the key `fromm` validates. -/
theorem backlink_fromm_until_required_despite_optional_annotation :
    BacklinkResponse.model_validate (.obj [("namespaces", .arr []), ("backlinks", .arr [])])
      = .error ["fromm", "until"]
    ∧ BacklinkResponse.model_validate
        (.obj [("namespaces", .arr []), ("backlinks", .arr []),
          ("from", .null), ("until", .null)])
      = .error ["fromm"]
    ∧ BacklinkResponse.model_validate
        (.obj [("namespaces", .arr []), ("backlinks", .arr []),
          ("fromm", .null), ("until", .null)])
      = .ok ⟨[], [], none, none⟩ :=
  ⟨rfl, rfl, rfl⟩

/-- C6: a payload that omits the required field `token` fails
`EditGETResponse` validation, and the validation error names the missing
field. -/
theorem missing_token_field_error_names_token (fields : List (String × Json))
    (hmiss : jlookup fields "token" = none) :
    ∃ errs : VErr,
      EditGETResponse.model_validate (.obj fields) = .error errs ∧ "token" ∈ errs := by
  have htok : reqField fields "token" asStr = .error ["token"] := by
    simp [reqField, hmiss]
  obtain ⟨e1, he1, hs1⟩ :=
    @combine2_error_right Bool String (reqField fields "exists" asBool) ["token"]
  obtain ⟨e2, he2, hs2⟩ :=
    @combine2_error_right String (Bool × String) (reqField fields "text" asStr) e1
  refine ⟨e2, ?_, hs2 _ (hs1 _ (by simp))⟩
  simp only [EditGETResponse.model_validate, htok, he1, he2]
  rfl

/-- Witness for C6: the payload `{"text": "hi", "exists": true}` (no `token`)
is rejected with an error naming `token`. -/
theorem missing_token_field_error_names_token_witness :
    jlookup [("text", Json.str "hi"), ("exists", Json.bool true)] "token" = none
    ∧ ∃ errs : VErr,
        EditGETResponse.model_validate
            (.obj [("text", Json.str "hi"), ("exists", Json.bool true)])
          = .error errs ∧ "token" ∈ errs :=
  ⟨rfl, missing_token_field_error_names_token _ rfl⟩

/-- C7: calling `backlink` with only the document — namespace, flag, from and
until all unset — produces a request whose query string contains none of those
four parameters, because `requests` drops `None`-valued entries entirely;
supplied parameters appear under their wire names. -/
theorem backlink_omits_unset_query_params :
    backlinkParams none none none none = []
    ∧ backlinkParams (some "분류") (some 4) (some "A") none
        = [("namespace", "분류"), ("flag", "4"), ("from", "A")] :=
  ⟨rfl, rfl⟩

/-- C8: the discussion status field accepts exactly
`{"normal", "close", "pause"}`: a `DiscussResponse` payload with status
`"archived"` fails validation naming `status`, and in `discuss()` one failing
element fails the whole call — no partial list — while a list of valid
elements validates. -/
theorem discuss_status_closed_set_rejects_unknown :
    DiscussResponse.model_validate
        (.obj [("slug", .str "s2"), ("topic", .str "T2"),
          ("updated_date", .num 1), ("status", .str "archived")])
      = .error ["status"]
    ∧ discuss 200
        (.arr [.obj [("slug", .str "s"), ("topic", .str "T"),
            ("updated_date", .num 0), ("status", .str "normal")],
          .obj [("slug", .str "s2"), ("topic", .str "T2"),
            ("updated_date", .num 1), ("status", .str "archived")]])
      = .error (.schema ["status"])
    ∧ discuss 200
        (.arr [.obj [("slug", .str "s"), ("topic", .str "T"),
            ("updated_date", .num 0), ("status", .str "normal")]])
      = .ok [⟨"s", "T", 0, .normal⟩] :=
  ⟨rfl, rfl, rfl⟩

/-- C9: `acquire` takes no lock, so the check of `last` and its update are not
one indivisible step. In the interleaving `racySchedule` of two threads that
both enter `acquire()` of a `Limiter(1)` at instant `1/2` (previous completion
at `0`), both threads read the stale `last = 0` and both sleep only `1/2`,
strictly less than the configured interval `1`, completing at the same
instant `1`. -/
theorem limiter_race_both_underwait :
    (raceRun racyStart racySchedule).threadA = .finished (1/2) 1
    ∧ (raceRun racyStart racySchedule).threadB = .finished (1/2) 1
    ∧ (1/2 : ℚ) < racyStart.interval := by
  refine ⟨?_, ?_, ?_⟩ <;>
    norm_num [raceRun, racyStart, racySchedule, raceStep, stepThread, sleepRequest]

end Pynamubot
